import Mathlib

/-!
Verification development for the Dataverse MCP setup tool
(`mcp_setup.py`, two variants: the unified variant under
`plugins/dataverse-mcp-setup` and the per-organization-naming variant under
`plugins/dataverse`).

The Python program is embedded shallowly: JSON values become the inductive
`JVal`, Python exceptions become `Except PyExn`, the program's observable
behaviour (exit code, stdout, stderr) becomes `ProgOut`, and the external
world (which binaries exist, what subprocesses and HTTP calls return, the
configuration-file content) becomes explicit structure arguments.
-/

/-- A JSON value, as produced by Python's `json.load`/`json.loads`.
Objects are association lists in insertion order (Python dicts preserve
insertion order and have unique keys). `null` also stands for Python `None`
(the default of one-argument `dict.get`). -/
inductive JVal where
  | null
  | bool (b : Bool)
  | num (n : Int)
  | str (s : String)
  | arr (elems : List JVal)
  | obj (fields : List (String × JVal))

/-- A raised Python exception: class name and message. -/
structure PyExn where
  name : String
  msg : String
deriving DecidableEq, Repr

/-- Result of running a piece of Python code: a value, or an uncaught
exception. -/
abbrev PyResult (α : Type) := Except PyExn α

/-- One `print(...)` call on standard output. Structured JSON payloads
(`print(json.dumps(...))`) are kept structured rather than serialized,
since no claim inspects the serialized bytes. -/
inductive OutLine where
  | text (s : String)
  | jsonEnvs (envs : List (JVal × String))
  | jsonStrings (urls : List String)

/-- Observable behaviour of one command invocation: the exit code returned
from the Python function, the lines printed to stdout, and the lines printed
to stderr. -/
structure ProgOut where
  exitCode : Nat
  stdout : List OutLine
  stderr : List String

/-- Python `v == s` for a string literal `s`: true exactly when `v` is the
equal string (values of other types are never equal to a string). -/
def JVal.eqStr : JVal → String → Bool
  | JVal.str t, s => t = s
  | _, _ => false

/-- First binding of a key in a JSON object (Python dict keys are unique). -/
def jlookup : List (String × JVal) → String → Option JVal
  | [], _ => none
  | (k, v) :: rest, key => if k = key then some v else jlookup rest key

/-- Python `key in dict`. -/
def hasKey (fields : List (String × JVal)) (key : String) : Bool :=
  (jlookup fields key).isSome

/-- Python `d[key] = v`: replaces the value in place when the key exists
(keeping insertion order), otherwise appends the new binding. -/
def jinsert : List (String × JVal) → String → JVal → List (String × JVal)
  | [], key, v => [(key, v)]
  | (k, w) :: rest, key, v =>
      if k = key then (k, v) :: rest else (k, w) :: jinsert rest key v

/-- Python `x.get(key, default)`: succeeds only when the receiver is a dict
(on any other value attribute lookup of `get` raises `AttributeError`). -/
def pyGetD (v : JVal) (key : String) (default : JVal) : PyResult JVal :=
  match v with
  | JVal.obj fields => Except.ok ((jlookup fields key).getD default)
  | _ => Except.error ⟨"AttributeError", "get"⟩

/-- Total field access used on the specification side: `none` whenever the
value is not an object or lacks the key. -/
def jget : JVal → String → Option JVal
  | JVal.obj fields, key => jlookup fields key
  | _, _ => none

/-- Python `for x in v`: lists iterate elements, strings iterate one-character
strings, dicts iterate their keys; other values raise `TypeError`. -/
def pyIter (v : JVal) : PyResult (List JVal) :=
  match v with
  | JVal.arr elems => Except.ok elems
  | JVal.str s => Except.ok (s.data.map (fun c => JVal.str (String.mk [c])))
  | JVal.obj fields => Except.ok (fields.map (fun kv => JVal.str kv.1))
  | _ => Except.error ⟨"TypeError", "not iterable"⟩

/-- Drop the longest suffix whose characters all satisfy `p`
(the list form of Python `str.rstrip`). -/
def dropRightWhileL (p : Char → Bool) (l : List Char) : List Char :=
  (l.reverse.dropWhile p).reverse

/-- Python `s.rstrip(chars)`. -/
def rstripChars (cs : List Char) (s : String) : String :=
  String.mk (dropRightWhileL (fun c => cs.contains c) s.data)

/-- `l` starts with `pat`. -/
def startsWithL : List Char → List Char → Bool
  | _, [] => true
  | [], _ :: _ => false
  | c :: cs, p :: ps => c == p && startsWithL cs ps

/-- `pat` occurs as a contiguous substring of `s`. -/
def occursIn (pat : List Char) : List Char → Bool
  | [] => pat.isEmpty
  | c :: cs => startsWithL (c :: cs) pat || occursIn pat cs

/-- String form of `occursIn`: Python `pat in s`. -/
def occursInS (pat s : String) : Bool := occursIn pat.data s.data

/-- String form of `startsWithL`: Python `s.startswith(pat)`. -/
def startsWithS (s pat : String) : Bool := startsWithL s.data pat.data

example : occursInS "already running" "x already running y" = true := by decide
example : occursInS "abc" "ab" = false := by decide
example : rstripChars [Char.ofNat 47] "https://a.b/" = "https://a.b" := by decide

/-! ## Environment Lister (`list_environments`, unified variant lines 72-184)

The filter loop (lines 160-174):
```
for e in data.get("value", []):
    props = e.get("properties", {})
    if props.get("databaseType") != "CommonDataService":
        continue
    linked_metadata = props.get("linkedEnvironmentMetadata", {})
    instance_url = linked_metadata.get("instanceUrl", "").rstrip("/")
    if instance_url:
        envs.append({"displayName": props.get("displayName", "(unnamed)"),
                     "instanceUrl": instance_url})
```
-/

/-- Processing of one record of the filter loop: `ok none` when the record is
skipped, `ok (some (displayName, instanceUrl))` when it is kept, and an
exception when an attribute access fails (the loop is not inside a
`try` block). `rstrip` on a non-string value raises `AttributeError`. -/
def envFromRecord (e : JVal) : PyResult (Option (JVal × String)) :=
  match pyGetD e "properties" (JVal.obj []) with
  | Except.error err => Except.error err
  | Except.ok props =>
    match pyGetD props "databaseType" JVal.null with
    | Except.error err => Except.error err
    | Except.ok dbType =>
      if dbType.eqStr "CommonDataService" then
        match pyGetD props "linkedEnvironmentMetadata" (JVal.obj []) with
        | Except.error err => Except.error err
        | Except.ok lm =>
          match pyGetD lm "instanceUrl" (JVal.str "") with
          | Except.error err => Except.error err
          | Except.ok (JVal.str s) =>
            let instance_url := rstripChars [Char.ofNat 47] s
            if instance_url = "" then Except.ok none
            else
              match pyGetD props "displayName" (JVal.str "(unnamed)") with
              | Except.error err => Except.error err
              | Except.ok dn => Except.ok (some (dn, instance_url))
          | Except.ok _ => Except.error ⟨"AttributeError", "rstrip"⟩
      else Except.ok none

/-- The whole filter loop over the records of the `value` list. -/
def filterEnvRecords : List JVal → PyResult (List (JVal × String))
  | [] => Except.ok []
  | e :: rest =>
      match envFromRecord e with
      | Except.error err => Except.error err
      | Except.ok r =>
        match filterEnvRecords rest with
        | Except.error err => Except.error err
        | Except.ok rs =>
          Except.ok (match r with | some env => env :: rs | none => rs)

/-- Specification-side description of the filter for one record, following the
spec's words: keep exactly the records whose `properties.databaseType` equals
`"CommonDataService"` and whose `properties.linkedEnvironmentMetadata.instanceUrl`
is non-empty after trimming trailing slashes, projected to
`(displayName, instanceUrl)`. -/
def specEnvOfRecord (e : JVal) : Option (JVal × String) :=
  let props := (jget e "properties").getD (JVal.obj [])
  if ((jget props "databaseType").getD JVal.null).eqStr "CommonDataService" then
    let lm := (jget props "linkedEnvironmentMetadata").getD (JVal.obj [])
    match (jget lm "instanceUrl").getD (JVal.str "") with
    | JVal.str s =>
        let iu := rstripChars [Char.ofNat 47] s
        if iu = "" then none
        else some ((jget props "displayName").getD (JVal.str "(unnamed)"), iu)
    | _ => none
  else none

/-- Specification-side filtered environment list. -/
def specFilterEnvs (records : List JVal) : List (JVal × String) :=
  records.filterMap specEnvOfRecord

/-- Outcome of the bearer-authenticated HTTP GET plus JSON parse
(lines 139-158): each constructor is one `except` branch. -/
inductive HttpOutcome where
  | ok (data : JVal)
  | httpError (code : Nat)
  | urlError (reason : String)
  | jsonError (msg : String)
  | otherError (msg : String)

/-- External-world inputs of one `list-environments` run: whether the `az`
binary resolves on the search path, whether `az account show` succeeds,
whether the interactive `az login` succeeds, the token subprocess outcome
(`none` = `CalledProcessError`/`TimeoutExpired`), and the HTTP outcome. -/
structure ListEnvWorld where
  azPresent : Bool
  accountShowOk : Bool
  loginOk : Bool
  tokenOutcome : Option String
  http : HttpOutcome

/-- A single-quote character, for diagnostic strings. -/
def squote : String := String.mk [Char.ofNat 39]

def azMissingMsg : String :=
  "Error: Azure CLI (az) is not installed. Install it from https://aka.ms/installazurecli"

def loginFailedMsg : String := "Error: Azure login failed."

def tokenFailMsg : String :=
  "Error: Could not obtain an access token. Run " ++ squote ++ "az login" ++ squote ++ " and try again."

def noEnvMsg : String :=
  "No Dataverse (CommonDataService) environments were found for this account."

def httpErrorMsg (code : Nat) : String :=
  "Error: HTTP " ++ toString code ++ " - Failed to retrieve environments from Power Apps API."

def urlErrMsg (reason : String) : String :=
  "Error: Failed to connect to Power Apps API: " ++ reason

def jsonErrMsg (msg : String) : String :=
  "Error: Could not parse API response: " ++ msg

def otherErrMsg (msg : String) : String :=
  "Error: Unexpected error calling Power Apps API: " ++ msg

/-- Body of `list_environments` (unified variant lines 72-184), as a function
of the external world. An `Except.error` models an exception escaping the
function (the filter loop is outside every `try`). -/
def list_environments_run (w : ListEnvWorld) : PyResult ProgOut :=
  if w.azPresent = false then Except.ok ⟨1, [], [azMissingMsg]⟩
  else if w.accountShowOk = false ∧ w.loginOk = false then
    Except.ok ⟨1, [], [loginFailedMsg]⟩
  else match w.tokenOutcome with
  | none => Except.ok ⟨1, [], [tokenFailMsg]⟩
  | some _tok =>
    match w.http with
    | HttpOutcome.httpError c => Except.ok ⟨1, [], [httpErrorMsg c]⟩
    | HttpOutcome.urlError r => Except.ok ⟨1, [], [urlErrMsg r]⟩
    | HttpOutcome.jsonError m => Except.ok ⟨1, [], [jsonErrMsg m]⟩
    | HttpOutcome.otherError m => Except.ok ⟨1, [], [otherErrMsg m]⟩
    | HttpOutcome.ok data =>
        match pyGetD data "value" (JVal.arr []) with
        | Except.error err => Except.error err
        | Except.ok v =>
          match pyIter v with
          | Except.error err => Except.error err
          | Except.ok records =>
            match filterEnvRecords records with
            | Except.error err => Except.error err
            | Except.ok [] => Except.ok ⟨1, [], [noEnvMsg]⟩
            | Except.ok envs => Except.ok ⟨0, [OutLine.jsonEnvs envs], []⟩

/-- `list_environments` of the unified variant (its module imports `shutil`
at line 19, so the body runs as written). -/
def list_environments (w : ListEnvWorld) : PyResult ProgOut :=
  list_environments_run w

/-- Global names bound at module level in the per-organization-naming variant
(`plugins/dataverse/skills/mcp-setup/mcp_setup.py`): its imports at lines
13-22 (note: no `shutil`) plus the `from`-imported names and the module-level
definitions. -/
def orgModuleGlobals : List String :=
  ["argparse", "json", "os", "platform", "subprocess", "sys",
   "Path", "Set", "Request", "urlopen", "URLError", "HTTPError",
   "SERVER_NAME_PREFIX", "get_copilot_config_path", "extract_org_name",
   "get_server_name", "list_environments", "get_configured_servers",
   "configure_copilot", "configure", "main"]

/-- `list_environments` of the per-organization-naming variant (lines 79-191):
its first statement evaluates the name `shutil` (`if not shutil.which("az")`),
which raises `NameError` unless `shutil` is bound at module level; only when
that name resolves would the rest of the body (identical to the unified
variant) run. -/
def org_list_environments (w : ListEnvWorld) : PyResult ProgOut :=
  if "shutil" ∈ orgModuleGlobals then list_environments_run w
  else Except.error ⟨"NameError", "name " ++ squote ++ "shutil" ++ squote ++ " is not defined"⟩

/-! ## Helper lemmas -/

theorem head?_dropWhile_not (p : Char → Bool) :
    ∀ (l : List Char) (c : Char), (List.dropWhile p l).head? = some c → p c = false := by
  intro l
  induction l with
  | nil => intro c h; simp [List.dropWhile] at h
  | cons a rest ih =>
      intro c h
      rw [List.dropWhile_cons] at h
      cases hp : p a with
      | true => rw [hp] at h; simp at h; exact ih c h
      | false =>
          rw [hp] at h
          simp at h
          rw [← h]
          exact hp

theorem rstripChars_no_trailing (cs : List Char) (s : String) (c : Char)
    (hc : cs.contains c = true) :
    (rstripChars cs s).data.getLast? ≠ some c := by
  intro h
  have hd : (rstripChars cs s).data
      = ((s.data.reverse.dropWhile (fun x => cs.contains x)).reverse) := rfl
  rw [hd, List.getLast?_reverse] at h
  have := head?_dropWhile_not (fun x => cs.contains x) s.data.reverse c h
  simp only [hc] at this
  cases this

theorem pyGetD_ok {v d x : JVal} {k : String}
    (h : pyGetD v k d = Except.ok x) : (jget v k).getD d = x := by
  cases v <;> simp [pyGetD, jget] at h ⊢
  exact h

/-- One record of the loop agrees with the specification-side filter whenever
the loop body does not raise. -/
theorem envFromRecord_ok (e : JVal) (r : Option (JVal × String))
    (h : envFromRecord e = Except.ok r) : r = specEnvOfRecord e := by
  unfold envFromRecord at h
  simp only [specEnvOfRecord]
  cases h1 : pyGetD e "properties" (JVal.obj []) with
  | error err => simp [h1] at h
  | ok props =>
    simp only [h1] at h
    rw [pyGetD_ok h1]
    cases h2 : pyGetD props "databaseType" JVal.null with
    | error err => simp [h2] at h
    | ok dbType =>
      simp only [h2] at h
      rw [pyGetD_ok h2]
      cases hdb : dbType.eqStr "CommonDataService" with
      | false =>
          simp [hdb] at h ⊢
          exact h.symm
      | true =>
          simp only [hdb, if_true] at h ⊢
          cases h3 : pyGetD props "linkedEnvironmentMetadata" (JVal.obj []) with
          | error err => simp [h3] at h
          | ok lm =>
            simp only [h3] at h
            rw [pyGetD_ok h3]
            cases h4 : pyGetD lm "instanceUrl" (JVal.str "") with
            | error err => simp [h4] at h
            | ok iu =>
              simp only [h4] at h
              rw [pyGetD_ok h4]
              cases iu with
              | str s =>
                  simp only at h ⊢
                  by_cases hemp : rstripChars [Char.ofNat 47] s = ""
                  · simp [hemp] at h ⊢
                    exact h.symm
                  · simp only [hemp, if_neg, if_false] at h ⊢
                    cases h5 : pyGetD props "displayName" (JVal.str "(unnamed)") with
                    | error err => simp [hemp, h5] at h
                    | ok dn =>
                        simp only [h5] at h
                        rw [pyGetD_ok h5]
                        simp [hemp] at h ⊢
                        exact h.symm
              | null => simp at h
              | bool b => simp at h
              | num n => simp at h
              | arr es => simp at h
              | obj fs => simp at h

/-- The whole filter loop agrees with the specification-side filter whenever
no loop iteration raises. -/
theorem filterEnvRecords_ok : ∀ (records : List JVal) (envs : List (JVal × String)),
    filterEnvRecords records = Except.ok envs → envs = specFilterEnvs records := by
  intro records
  induction records with
  | nil =>
      intro envs h
      simp [filterEnvRecords] at h
      simp [specFilterEnvs, ← h]
  | cons e rest ih =>
      intro envs h
      unfold filterEnvRecords at h
      cases h1 : envFromRecord e with
      | error err => simp [h1] at h
      | ok r =>
        simp only [h1] at h
        cases h2 : filterEnvRecords rest with
        | error err => simp [h2] at h
        | ok rs =>
          simp only [h2] at h
          have hr := envFromRecord_ok e r h1
          have hrs := ih rs h2
          simp only [specFilterEnvs, List.filterMap_cons, ← hr]
          simp only [specFilterEnvs] at hrs
          cases r with
          | none => simp at h ⊢; rw [← h, hrs]
          | some env => simp at h ⊢; rw [← h, hrs]

/-- A kept record's `instanceUrl` never ends in a slash. -/
theorem specEnvOfRecord_no_trailing (e : JVal) (pr : JVal × String)
    (h : specEnvOfRecord e = some pr) :
    pr.2.data.getLast? ≠ some (Char.ofNat 47) := by
  simp only [specEnvOfRecord] at h
  split at h
  · split at h
    · split at h
      · cases h
      · cases h
        exact rstripChars_no_trailing [Char.ofNat 47] _ (Char.ofNat 47) (by decide)
    · cases h
  · cases h

/-- **C6**: the environment list produced by the filter step contains exactly
the `(displayName, instanceUrl)` projections of the records whose
`properties.databaseType` equals `"CommonDataService"` and whose
`properties.linkedEnvironmentMetadata.instanceUrl` is non-empty after trimming
trailing slashes (`specFilterEnvs` states that filter in the spec's words);
in particular no record with a different `databaseType` appears, and no output
`instanceUrl` ends in a `/` (code point 47). -/
theorem filter_envs_matches_spec (records : List JVal) (envs : List (JVal × String))
    (h : filterEnvRecords records = Except.ok envs) :
    envs = specFilterEnvs records ∧
    ∀ p ∈ envs, p.2.data.getLast? ≠ some (Char.ofNat 47) := by
  have heq := filterEnvRecords_ok records envs h
  refine ⟨heq, ?_⟩
  intro p hp
  rw [heq] at hp
  simp only [specFilterEnvs] at hp
  obtain ⟨e, _, hsome⟩ := List.mem_filterMap.mp hp
  exact specEnvOfRecord_no_trailing e p hsome

/-- A concrete management-API `value` list: one Dataverse record with a
trailing-slash `instanceUrl` and one record of another database type. -/
def c6Records : List JVal :=
  [JVal.obj [("properties", JVal.obj
      [("databaseType", JVal.str "CommonDataService"),
       ("linkedEnvironmentMetadata", JVal.obj
          [("instanceUrl", JVal.str "https://contoso.crm.dynamics.com/")]),
       ("displayName", JVal.str "Contoso")])],
   JVal.obj [("properties", JVal.obj [("databaseType", JVal.str "Teams")])]]

/-- Witness for C6 at `c6Records`: the filter keeps exactly the trimmed
projection of the Dataverse record. -/
theorem filter_envs_matches_spec_witness :
    filterEnvRecords c6Records =
      Except.ok [(JVal.str "Contoso", "https://contoso.crm.dynamics.com")] ∧
    ([(JVal.str "Contoso", "https://contoso.crm.dynamics.com")] = specFilterEnvs c6Records ∧
      ∀ p ∈ [((JVal.str "Contoso" : JVal), "https://contoso.crm.dynamics.com")],
        p.2.data.getLast? ≠ some (Char.ofNat 47)) :=
  ⟨rfl, filter_envs_matches_spec c6Records _ rfl⟩

/-- **C7**: whenever the run reaches the management-API response (the `az`
binary exists, the session check or the login succeeded, a token was obtained,
the HTTP GET parsed) and the filtered environment list is empty, the operation
returns exit code 1, writes its diagnostic to stderr, and writes nothing to
stdout. -/
theorem empty_env_list_exit_one (w : ListEnvWorld) (data v : JVal)
    (records : List JVal) (tok : String)
    (haz : w.azPresent = true)
    (hlog : w.accountShowOk = true ∨ w.loginOk = true)
    (htok : w.tokenOutcome = some tok)
    (hhttp : w.http = HttpOutcome.ok data)
    (hval : pyGetD data "value" (JVal.arr []) = Except.ok v)
    (hit : pyIter v = Except.ok records)
    (hfil : filterEnvRecords records = Except.ok []) :
    list_environments w = Except.ok ⟨1, [], [noEnvMsg]⟩ := by
  obtain ⟨az, ash, lok, tk, http⟩ := w
  simp only at haz hlog htok hhttp
  subst haz htok hhttp
  rcases hlog with h | h <;> subst h <;>
    simp [list_environments, list_environments_run, hval, hit, hfil]

/-- A concrete world for C7: everything up to the HTTP call succeeds and the
response's `value` list is empty. -/
def c7World : ListEnvWorld :=
  ⟨true, true, false, some "tok", HttpOutcome.ok (JVal.obj [("value", JVal.arr [])])⟩

/-- Witness for C7 at `c7World`. -/
theorem empty_env_list_exit_one_witness :
    list_environments c7World = Except.ok ⟨1, [], [noEnvMsg]⟩ :=
  empty_env_list_exit_one c7World (JVal.obj [("value", JVal.arr [])])
    (JVal.arr []) [] "tok" rfl (Or.inl rfl) rfl rfl rfl rfl rfl

/-- **C3**: in the per-organization-naming variant every invocation of
`list-environments` raises `NameError` (the module never imports `shutil`,
yet the function's first statement calls `shutil.which`), so it can never
produce the environment list or any of the specified error exits. -/
theorem org_variant_list_environments_always_name_error (w : ListEnvWorld) :
    org_list_environments w =
      Except.error ⟨"NameError",
        "name " ++ squote ++ "shutil" ++ squote ++ " is not defined"⟩ := by
  have hmem : ("shutil" ∈ orgModuleGlobals) = False := by
    simp [orgModuleGlobals]
  simp [org_list_environments, hmem]

/-! ## Configuration Writer (`configure`, unified variant lines 273-445) -/

def SERVER_NAME : String := "Dataverse"

def CLAUDE_OAUTH_CLIENT_ID : String := "f4ffe97c-20c7-4620-9ad6-b3e41f878dd0"

/-- Endpoint URL computation (lines 376-380): `{org_url}/api/mcp_preview` when
the endpoint type is `"preview"`, otherwise `{org_url}/api/mcp`. -/
def mcp_url (org_url endpoint_type : String) : String :=
  if endpoint_type = "preview" then org_url ++ "/api/mcp_preview"
  else org_url ++ "/api/mcp"

/-- The manual `claude mcp add` command synthesized at lines 309-312. -/
def manual_cmd (u : String) : String :=
  "claude mcp add --scope user \"" ++ SERVER_NAME ++ "\" -t http \"" ++ u
    ++ "\" --client-id \"" ++ CLAUDE_OAUTH_CLIENT_ID ++ "\""

/-- Outcome of the `claude mcp add` subprocess run with `check=True`:
either it succeeds, or it raises `CalledProcessError` carrying the captured
stderr and stdout. -/
inductive ClaudeAddOutcome where
  | ok
  | err (stderr stdout : String)

/-- The two return shapes of `configure_claude`: `(True, None)` or
`(False, manual_command)`. -/
inductive ClaudeCfg where
  | success
  | manual (cmd : String)

def nestedPhrase1 : String := "cannot be launched inside another Claude Code session"

def nestedPhrase2 : String := "already running"

/-- Python `str.lower()`, character by character (`Char.toLower` lowercases
the ASCII range, which covers both compared phrases). -/
def toLowerS (s : String) : String := String.mk (s.data.map Char.toLower)

/-- Nested-session detection (lines 305-307): substring match of the two
known phrases against the lowercased `e.stderr + e.stdout`. -/
def isNestedErr (combined : String) : Bool :=
  occursInS nestedPhrase1 (toLowerS combined) || occursInS nestedPhrase2 (toLowerS combined)

/-- `configure_claude` (lines 273-315): success on a clean run; on
`CalledProcessError`, the manual command when the nested-session phrases
match, otherwise the exception is re-raised. -/
def configure_claude (u : String) (o : ClaudeAddOutcome) : PyResult ClaudeCfg :=
  match o with
  | ClaudeAddOutcome.ok => Except.ok ClaudeCfg.success
  | ClaudeAddOutcome.err se so =>
      if isNestedErr (se ++ so) then Except.ok (ClaudeCfg.manual (manual_cmd u))
      else Except.error ⟨"CalledProcessError", se ++ so⟩

/-- The manual-command block queued at lines 402-406. -/
def claudeNestedBlock (cmd : String) : String :=
  "\nClaude Code cannot be configured from within a Claude session.\n"
    ++ "Please exit this Claude session and run the following command:\n\n  "
    ++ cmd ++ "\n"

def claudeNotFoundMsg : String :=
  "Error: Claude CLI not found. Cannot configure Claude."

/-- Diagnostic of line 411; the tail renders the `CalledProcessError`. -/
def claudeFailMsg (e : PyExn) : String :=
  "Error: Failed to configure Claude CLI: " ++ e.msg

/-- Diagnostic of line 421; the tail renders the caught exception. -/
def copilotFailMsg (e : PyExn) : String :=
  "Error: Failed to configure GitHub Copilot: " ++ e.msg

def noToolsMsg : String := "Error: No tools were configured."

/-- External-world inputs of one `configure` run: whether the `claude` binary
resolves, the outcome of the `claude mcp add` subprocess (used only when it is
invoked), the exception raised by `configure_copilot` if any (`none` =
success), and the resolved Copilot config-file path. -/
structure ConfigureWorld where
  hasClaude : Bool
  claudeAdd : ClaudeAddOutcome
  copilotFail : Option PyExn
  configPath : String

/-- An 80-character separator rule (`"=" * 80`). -/
def rule80 : String := String.mk (List.replicate 80 (Char.ofNat 61))

/-- Lines 425-445: the `NothingConfigured` check, the success block, and the
queued manual-command block. -/
def configureFinish (u configPath : String)
    (configured_for manual_commands errs : List String) : ProgOut :=
  match configured_for, manual_commands with
  | [], [] => ⟨1, [], errs ++ [noToolsMsg]⟩
  | _, _ =>
    let outs1 : List OutLine :=
      match configured_for with
      | [] => []
      | _ =>
        [OutLine.text "Dataverse MCP server registered successfully.",
         OutLine.text ("  Server URL     : " ++ u),
         OutLine.text ("  Configured for : " ++ String.intercalate ", " configured_for)]
        ++ (if "GitHub Copilot" ∈ configured_for then
              [OutLine.text ("  Copilot config : " ++ configPath)] else [])
    let outs2 : List OutLine :=
      match manual_commands with
      | [] => []
      | _ =>
        [OutLine.text ("\n" ++ rule80),
         OutLine.text "MANUAL CONFIGURATION REQUIRED",
         OutLine.text rule80]
        ++ manual_commands.map OutLine.text
    ⟨0, outs1 ++ outs2, errs⟩

/-- The Claude portion of `configure` (lines 390-413). `Except.error` carries
an early return; `Except.ok` carries `(configured_for, manual_commands,
stderr-so-far)`. -/
def claudeStep (u tool : String) (w : ConfigureWorld) :
    Except ProgOut (List String × List String × List String) :=
  if tool = "claude" ∨ tool = "both" then
    if w.hasClaude = false then
      if tool = "claude" then Except.error ⟨1, [], [claudeNotFoundMsg]⟩
      else Except.ok ([], [], [claudeNotFoundMsg])
    else
      match configure_claude u w.claudeAdd with
      | Except.ok ClaudeCfg.success => Except.ok (["Claude Code CLI"], [], [])
      | Except.ok (ClaudeCfg.manual cmd) =>
          if tool = "claude" then
            Except.error ⟨0, [OutLine.text (claudeNestedBlock cmd)], []⟩
          else Except.ok ([], [claudeNestedBlock cmd], [])
      | Except.error e =>
          if tool = "claude" then Except.error ⟨1, [], [claudeFailMsg e]⟩
          else Except.ok ([], [], [claudeFailMsg e])
  else Except.ok ([], [], [])

/-- `configure` (lines 364-445) as a function of the external world. Total:
every exception of the two helper calls is caught inside the function. -/
def configure (org_url endpoint_type tool : String) (w : ConfigureWorld) : ProgOut :=
  let u := mcp_url org_url endpoint_type
  match claudeStep u tool w with
  | Except.error out => out
  | Except.ok (conf1, manuals, errs1) =>
    if tool = "copilot" ∨ tool = "both" then
      match w.copilotFail with
      | some e =>
          if tool = "copilot" then ⟨1, [], errs1 ++ [copilotFailMsg e]⟩
          else configureFinish u w.configPath conf1 manuals (errs1 ++ [copilotFailMsg e])
      | none => configureFinish u w.configPath (conf1 ++ ["GitHub Copilot"]) manuals errs1
    else configureFinish u w.configPath conf1 manuals errs1

theorem occursIn_nilpat (l : List Char) : occursIn [] l = true := by
  cases l <;> simp [occursIn, startsWithL, List.isEmpty]

theorem startsWithL_append (l pat : List Char) : startsWithL (pat ++ l) pat = true := by
  induction pat with
  | nil => simp [startsWithL]
  | cons p ps ih => simp [startsWithL, ih]

theorem occursIn_append (pat a b : List Char) : occursIn pat (a ++ pat ++ b) = true := by
  induction a with
  | nil =>
      cases pat with
      | nil => simp [occursIn_nilpat]
      | cons p ps =>
          have h := startsWithL_append b (p :: ps)
          simp only [List.nil_append, List.cons_append] at h ⊢
          simp [occursIn, h]
  | cons c cs ih => simp [occursIn, ← List.append_assoc, ih]

theorem occursInS_append (pat a b : String) : occursInS pat (a ++ pat ++ b) = true := by
  unfold occursInS
  rw [String.data_append, String.data_append]
  exact occursIn_append pat.data a.data b.data

/-- **C1**: when only `claude` is requested, the `claude mcp add` invocation
raised `CalledProcessError`, and the lowercased combined stderr+stdout matches
a known nested-session phrase (`isNestedErr`), `configure` prints the block
containing the exact manual `claude mcp add` command on stdout and returns
exit code 0. -/
theorem configure_claude_nested_prints_manual (org_url endpoint_type : String)
    (w : ConfigureWorld) (se so : String)
    (hc : w.hasClaude = true)
    (hadd : w.claudeAdd = ClaudeAddOutcome.err se so)
    (hnested : isNestedErr (se ++ so) = true) :
    configure org_url endpoint_type "claude" w =
      ⟨0, [OutLine.text (claudeNestedBlock (manual_cmd (mcp_url org_url endpoint_type)))], []⟩ ∧
    occursInS (manual_cmd (mcp_url org_url endpoint_type))
      (claudeNestedBlock (manual_cmd (mcp_url org_url endpoint_type))) = true := by
  constructor
  · simp [configure, claudeStep, hc, hadd, configure_claude, hnested]
  · simp only [claudeNestedBlock]
    exact occursInS_append (manual_cmd (mcp_url org_url endpoint_type)) _ "\n"

/-- A concrete world for C1: the CLI is present and `claude mcp add` failed
with "already running" in its stderr. -/
def c1World : ConfigureWorld :=
  ⟨true, ClaudeAddOutcome.err "Claude Code is already running in this terminal.\n" "",
   none, "/home/user/.copilot/mcp-config.json"⟩

/-- Witness for C1 at `c1World`. -/
theorem configure_claude_nested_prints_manual_witness :
    configure "https://acme.crm.dynamics.com" "ga" "claude" c1World =
      ⟨0, [OutLine.text (claudeNestedBlock
             (manual_cmd (mcp_url "https://acme.crm.dynamics.com" "ga")))], []⟩ ∧
    occursInS (manual_cmd (mcp_url "https://acme.crm.dynamics.com" "ga"))
      (claudeNestedBlock (manual_cmd (mcp_url "https://acme.crm.dynamics.com" "ga"))) = true :=
  configure_claude_nested_prints_manual "https://acme.crm.dynamics.com" "ga" c1World
    "Claude Code is already running in this terminal.\n" "" rfl rfl (by decide)

/-- A concrete world for C2: the `claude` binary is absent and the Copilot
config-file write raises. -/
def c2World : ConfigureWorld :=
  ⟨false, ClaudeAddOutcome.ok, some ⟨"PermissionError", "denied"⟩,
   "/home/user/.copilot/mcp-config.json"⟩

/-- **C2** (evaluation at the failing input): with target `both`, the `claude`
binary absent and the Copilot file write failing, `configure` prints three
errors to stderr and exits 1 with nothing on stdout — it never prints the
manual-instructions block and never exits 0. (`print_manual_instructions`,
lines 318-361, is not called anywhere in `configure`; it also references the
undefined global `OAUTH_CLIENT_ID` and would itself raise `NameError`.) -/
theorem configure_both_unavailable_exits_one :
    configure "https://acme.crm.dynamics.com" "ga" "both" c2World =
      ⟨1, [],
       [claudeNotFoundMsg, copilotFailMsg ⟨"PermissionError", "denied"⟩, noToolsMsg]⟩ := by
  rfl

/-- **C5**: the endpoint URL is the organization URL followed by
`/api/mcp_preview` for endpoint type `"preview"` and by `/api/mcp` for
`"ga"`; indeed every endpoint type other than `"preview"` (the argparse
default being `"ga"`) yields `/api/mcp`, so no other derivation exists. -/
theorem mcp_url_endpoint_derivation (org_url : String) :
    mcp_url org_url "preview" = org_url ++ "/api/mcp_preview" ∧
    mcp_url org_url "ga" = org_url ++ "/api/mcp" ∧
    ∀ endpoint_type : String, endpoint_type ≠ "preview" →
      mcp_url org_url endpoint_type = org_url ++ "/api/mcp" := by
  refine ⟨rfl, rfl, ?_⟩
  intro et h
  simp [mcp_url, h]

/-- Witness for C5 at a concrete organization URL, discharging the
`≠ "preview"` hypothesis at `"ga"`. -/
theorem mcp_url_endpoint_derivation_witness :
    mcp_url "https://acme.crm.dynamics.com" "preview"
      = "https://acme.crm.dynamics.com/api/mcp_preview" ∧
    mcp_url "https://acme.crm.dynamics.com" "ga"
      = "https://acme.crm.dynamics.com/api/mcp" :=
  ⟨((mcp_url_endpoint_derivation "https://acme.crm.dynamics.com").1).trans (by rfl),
   ((mcp_url_endpoint_derivation "https://acme.crm.dynamics.com").2.2 "ga"
      (by decide)).trans (by rfl)⟩

/-! ## Config-store merge write (`configure_copilot`, unified variant lines
237-270, per-organization variant lines 222-256)

Both variants run the same merge code; the unified variant passes the constant
`SERVER_NAME`, the per-organization variant passes `get_server_name(org_url)`.
-/

/-- The entry written for Copilot (no OAuth fields): `{"type": "http", "url": u}`. -/
def newEntry (u : String) : JVal :=
  JVal.obj [("type", JVal.str "http"), ("url", JVal.str u)]

/-- The servers key chosen at line 257: `"servers"` if already present in the
parsed config, otherwise `"mcpServers"`. -/
def chosenKey (config : List (String × JVal)) : String :=
  if hasKey config "servers" then "servers" else "mcpServers"

/-- The pre-existing servers map under the chosen key (`[]` when absent). -/
def oldServers (config : List (String × JVal)) : List (String × JVal) :=
  match jlookup config (chosenKey config) with
  | some (JVal.obj m) => m
  | _ => []

/-- The merge step of `configure_copilot`: ensure the chosen key exists, then
upsert the entry keyed by `server_name`. `Except.error` models the `TypeError`
Python raises at `config[servers_key][server_name] = ...` when the existing
value under the chosen key is not a dict. -/
def configure_copilot_merge (config : List (String × JVal)) (server_name u : String) :
    PyResult (List (String × JVal)) :=
  let key := chosenKey config
  let config1 := if hasKey config key then config else jinsert config key (JVal.obj [])
  match jlookup config1 key with
  | some (JVal.obj servers) =>
      Except.ok (jinsert config1 key (JVal.obj (jinsert servers server_name (newEntry u))))
  | _ => Except.error ⟨"TypeError", "item assignment"⟩

/-- The value under the chosen key is absent or a JSON object (the shape on
which the Python assignment does not raise). -/
def serversSlotOk (config : List (String × JVal)) : Bool :=
  match jlookup config (chosenKey config) with
  | none => true
  | some (JVal.obj _) => true
  | some _ => false

theorem jlookup_jinsert (l : List (String × JVal)) (k : String) (v : JVal) :
    jlookup (jinsert l k v) k = some v := by
  induction l with
  | nil => simp [jinsert, jlookup]
  | cons kv rest ih =>
      obtain ⟨k1, v1⟩ := kv
      by_cases h : k1 = k
      · simp [jinsert, h, jlookup]
      · simp [jinsert, h, jlookup, ih]

theorem jlookup_jinsert_ne (l : List (String × JVal)) (k k' : String) (v : JVal)
    (h : k' ≠ k) : jlookup (jinsert l k v) k' = jlookup l k' := by
  induction l with
  | nil => simp [jinsert, jlookup, Ne.symm h]
  | cons kv rest ih =>
      obtain ⟨k1, v1⟩ := kv
      by_cases h1 : k1 = k
      · subst h1
        simp [jinsert, jlookup, Ne.symm h]
      · by_cases h2 : k1 = k'
        · simp [jinsert, h1, jlookup, h2, h]
        · simp [jinsert, h1, jlookup, h2, ih]

/-- **C4**: on every config whose servers slot is absent or an object, the
merge succeeds; afterwards the chosen servers key (`"servers"` when that key
was already present, else `"mcpServers"`) holds a map in which the entry named
`server_name` is the new `{type: http, url}` entry, every other server entry
is unchanged, and every other top-level key is unchanged. -/
theorem configure_copilot_merge_preserves (config : List (String × JVal))
    (server_name u : String) (h : serversSlotOk config = true) :
    ∃ config' m',
      configure_copilot_merge config server_name u = Except.ok config' ∧
      jlookup config' (chosenKey config) = some (JVal.obj m') ∧
      jlookup m' server_name = some (newEntry u) ∧
      (∀ n, n ≠ server_name → jlookup m' n = jlookup (oldServers config) n) ∧
      (∀ k, k ≠ chosenKey config → jlookup config' k = jlookup config k) ∧
      (hasKey config "servers" = true → chosenKey config = "servers") ∧
      (hasKey config "servers" = false → chosenKey config = "mcpServers") := by
  cases hlook : jlookup config (chosenKey config) with
  | none =>
      have hk : hasKey config (chosenKey config) = false := by
        simp [hasKey, hlook]
      refine ⟨jinsert (jinsert config (chosenKey config) (JVal.obj []))
          (chosenKey config) (JVal.obj (jinsert [] server_name (newEntry u))),
        jinsert [] server_name (newEntry u), ?_, ?_, ?_, ?_, ?_, ?_, ?_⟩
      · simp [configure_copilot_merge, hk, jlookup_jinsert]
      · exact jlookup_jinsert ..
      · exact jlookup_jinsert ..
      · intro n hn
        simp [jinsert, jlookup, Ne.symm hn, oldServers, hlook]
      · intro k hkne
        rw [jlookup_jinsert_ne _ _ _ _ hkne, jlookup_jinsert_ne _ _ _ _ hkne]
      · intro hs; simp [chosenKey, hs]
      · intro hs; simp [chosenKey, hs]
  | some v =>
      cases v with
      | obj m =>
          have hk : hasKey config (chosenKey config) = true := by
            simp [hasKey, hlook]
          refine ⟨jinsert config (chosenKey config)
              (JVal.obj (jinsert m server_name (newEntry u))),
            jinsert m server_name (newEntry u), ?_, ?_, ?_, ?_, ?_, ?_, ?_⟩
          · simp [configure_copilot_merge, hk, hlook]
          · exact jlookup_jinsert ..
          · exact jlookup_jinsert ..
          · intro n hn
            rw [jlookup_jinsert_ne _ _ _ _ hn]
            simp [oldServers, hlook]
          · intro k hkne
            exact jlookup_jinsert_ne _ _ _ _ hkne
          · intro hs; simp [chosenKey, hs]
          · intro hs; simp [chosenKey, hs]
      | null => simp [serversSlotOk, hlook] at h
      | bool b => simp [serversSlotOk, hlook] at h
      | num n => simp [serversSlotOk, hlook] at h
      | str s => simp [serversSlotOk, hlook] at h
      | arr es => simp [serversSlotOk, hlook] at h

/-- A concrete existing config for the C4 witness: a `"servers"` key with one
other entry, plus an unrelated top-level key. -/
def c4Config : List (String × JVal) :=
  [("servers", JVal.obj
      [("Other", JVal.obj [("type", JVal.str "http"), ("url", JVal.str "https://other.example")])]),
   ("theme", JVal.str "dark")]

/-- Witness for C4 at `c4Config`. -/
theorem configure_copilot_merge_preserves_witness :
    ∃ config' m',
      configure_copilot_merge c4Config "Dataverse" "https://acme.crm.dynamics.com/api/mcp"
        = Except.ok config' ∧
      jlookup config' (chosenKey c4Config) = some (JVal.obj m') ∧
      jlookup m' "Dataverse" = some (newEntry "https://acme.crm.dynamics.com/api/mcp") ∧
      (∀ n, n ≠ "Dataverse" → jlookup m' n = jlookup (oldServers c4Config) n) ∧
      (∀ k, k ≠ chosenKey c4Config → jlookup config' k = jlookup c4Config k) ∧
      (hasKey c4Config "servers" = true → chosenKey c4Config = "servers") ∧
      (hasKey c4Config "servers" = false → chosenKey c4Config = "mcpServers") :=
  configure_copilot_merge_preserves c4Config "Dataverse"
    "https://acme.crm.dynamics.com/api/mcp" (by decide)

/-! ## Per-organization server naming (`extract_org_name` / `get_server_name`,
per-organization variant lines 46-76) -/

def SERVER_NAME_PREFIX : String := "DataverseMcp"

/-- Python `s.replace(pat, "")` for the fixed non-empty scheme patterns:
scan left to right, removing non-overlapping occurrences. Structural
recursion on a fuel that the caller sets to `s.length`, which always
suffices because each step consumes at least one character. -/
def removeAllAux (pat : List Char) : Nat → List Char → List Char
  | _, [] => []
  | 0, s => s
  | fuel+1, c :: cs =>
      if startsWithL (c :: cs) pat && !pat.isEmpty then
        removeAllAux pat fuel (List.drop (pat.length - 1) cs)
      else c :: removeAllAux pat fuel cs

/-- Python `s.replace(pat, "")`. -/
def removeAllS (s pat : String) : String :=
  String.mk (removeAllAux pat.data s.data.length s.data)

/-- `extract_org_name` (lines 46-62): strip the `https://` and `http://`
substrings, strip trailing slashes, then take the first `.`-separated
segment (`url.split(".")[0]`). -/
def extract_org_name (org_url : String) : String :=
  let url := rstripChars [Char.ofNat 47]
    (removeAllS (removeAllS org_url "https://") "http://")
  String.mk (url.data.takeWhile (fun c => c != Char.ofNat 46))

/-- `get_server_name` (lines 65-76). -/
def get_server_name (org_url : String) : String :=
  SERVER_NAME_PREFIX ++ extract_org_name org_url

/-- Specification-side notion for C8: the first DNS label of a scheme-less
host string after dropping trailing slashes — the characters before the
first `.`. -/
def firstDnsLabel (host : String) : String :=
  String.mk ((rstripChars [Char.ofNat 47] host).data.takeWhile
    (fun c => c != Char.ofNat 46))

theorem removeAllAux_no_occur (pat : List Char) :
    ∀ (fuel : Nat) (s : List Char), occursIn pat s = false →
      removeAllAux pat fuel s = s := by
  intro fuel
  induction fuel with
  | zero => intro s h; cases s <;> rfl
  | succ n ih =>
      intro s h
      cases s with
      | nil => rfl
      | cons c cs =>
          rw [occursIn] at h
          simp only [Bool.or_eq_false_iff] at h
          rw [removeAllAux, if_neg (by simp [h.1])]
          rw [ih cs h.2]

theorem removeAllAux_headMatch (p : Char) (ps t : List Char)
    (h : occursIn (p :: ps) t = false) :
    removeAllAux (p :: ps) ((p :: ps) ++ t).length ((p :: ps) ++ t) = t := by
  have hl : ((p :: ps) ++ t).length = (ps.length + t.length) + 1 := by
    simp [List.length_append, List.length_cons]
  rw [hl]
  show removeAllAux (p :: ps) (ps.length + t.length + 1) (p :: (ps ++ t)) = t
  rw [removeAllAux]
  have hs : startsWithL (p :: (ps ++ t)) (p :: ps) = true := by
    have h0 := startsWithL_append t (p :: ps)
    simpa using h0
  rw [if_pos (by simp [hs, List.isEmpty])]
  simp only [List.length_cons, Nat.add_sub_cancel, List.drop_left]
  exact removeAllAux_no_occur _ _ _ h

theorem removeAllS_headMatch (pat t : String) (hne : pat.data.isEmpty = false)
    (h : occursInS pat t = false) : removeAllS (pat ++ t) pat = t := by
  unfold removeAllS
  rw [String.data_append]
  unfold occursInS at h
  cases hp : pat.data with
  | nil => rw [hp] at hne; simp [List.isEmpty] at hne
  | cons p ps =>
      rw [hp] at h
      rw [removeAllAux_headMatch p ps t.data h]

theorem removeAllS_no_occur (t pat : String) (h : occursInS pat t = false) :
    removeAllS t pat = t := by
  unfold removeAllS
  rw [removeAllAux_no_occur pat.data t.data.length t.data h]

/-- **C8**: `get_server_name` maps the cited example URL to
`"DataverseMcporgbc9a965c"`, and in general (for every URL written as
`https://` followed by text that contains no further scheme substring) the
server name is the fixed prefix `"DataverseMcp"` followed by the first DNS
label of the URL after removing the scheme and trailing slashes. -/
theorem get_server_name_first_label (t : String)
    (h1 : occursInS "https://" t = false)
    (h2 : occursInS "http://" t = false) :
    get_server_name "https://orgbc9a965c.crm10.dynamics.com" = "DataverseMcporgbc9a965c" ∧
    get_server_name ("https://" ++ t) = SERVER_NAME_PREFIX ++ firstDnsLabel t := by
  constructor
  · rfl
  · unfold get_server_name extract_org_name firstDnsLabel
    rw [removeAllS_headMatch "https://" t (by decide) h1, removeAllS_no_occur t "http://" h2]

/-- Witness for C8 at the cited organization URL. -/
theorem get_server_name_first_label_witness :
    get_server_name "https://orgbc9a965c.crm10.dynamics.com" = "DataverseMcporgbc9a965c" ∧
    get_server_name ("https://" ++ "orgbc9a965c.crm10.dynamics.com")
      = SERVER_NAME_PREFIX ++ firstDnsLabel "orgbc9a965c.crm10.dynamics.com" :=
  get_server_name_first_label "orgbc9a965c.crm10.dynamics.com" (by decide) (by decide)

/-! ## Configured-Server Reader (`get_configured_servers`, unified variant
lines 187-234; the per-organization variant, lines 194-219, runs the
copilot-file source alone) -/

/-- State of the Copilot configuration file as seen by `open` + `json.load`:
missing (`FileNotFoundError`), unparsable (`json.JSONDecodeError`), or parsed
to a JSON value. -/
inductive FileState where
  | missing
  | badJson
  | parsed (v : JVal)

/-- External-world inputs of one `get-configured` run: whether the `claude`
binary resolves, the outcome of `claude mcp list` (`none` =
`FileNotFoundError`/`TimeoutExpired`, otherwise return code and captured
stdout), and the configuration-file state. -/
structure GetConfWorld where
  hasClaude : Bool
  claudeList : Option (Int × String)
  copilotFile : FileState

/-- ASCII whitespace, Python's `\s` for the ASCII range. -/
def isSpace (c : Char) : Bool :=
  c == Char.ofNat 32 || c == Char.ofNat 9 || c == Char.ofNat 10
    || c == Char.ofNat 13 || c == Char.ofNat 11 || c == Char.ofNat 12

def httpsPat : List Char := "https://".data

/-- `re.findall(r"https://\S+", text)`: non-overlapping left-to-right matches
of the literal `https://` followed by a maximal non-empty run of non-space
characters. Fuel-based recursion; fuel `text.length` suffices since every
step consumes at least one character. -/
def findAllHttpsAux : Nat → List Char → List (List Char)
  | _, [] => []
  | 0, _ => []
  | fuel+1, c :: cs =>
      if startsWithL (c :: cs) httpsPat then
        let rest := List.drop (httpsPat.length - 1) cs
        let run := rest.takeWhile (fun ch => !isSpace ch)
        if run.isEmpty then findAllHttpsAux fuel cs
        else (httpsPat ++ run) :: findAllHttpsAux fuel (rest.drop run.length)
      else findAllHttpsAux fuel cs

def findAllHttps (s : String) : List String :=
  (findAllHttpsAux s.data.length s.data).map String.mk

/-- The punctuation set of `url.rstrip(".,;)\x22\x27")` at line 212:
period, comma, semicolon, closing parenthesis, double quote, single quote. -/
def trimPunct : List Char :=
  [Char.ofNat 46, Char.ofNat 44, Char.ofNat 59, Char.ofNat 41,
   Char.ofNat 34, Char.ofNat 39]

/-- Source 1 (lines 200-215): URLs scraped from `claude mcp list` output.
Only consulted when the tool selector includes claude and the binary exists;
a missing binary, timeout, or non-zero return code contributes nothing. -/
def claudeSourceUrls (tool : String) (w : GetConfWorld) : List String :=
  if (tool = "claude" ∨ tool = "both") ∧ w.hasClaude = true then
    match w.claudeList with
    | some (rc, out) =>
        if rc = 0 then (findAllHttps out).map (rstripChars trimPunct)
        else []
    | none => []
  else []

/-- The per-entry loop of source 2 (lines 226-229): `server.get("url", "")`,
strip trailing slash, keep when it starts with `https://`. Raises
`AttributeError` when an entry is not a dict or its url is not a string. -/
def collectUrls : List JVal → PyResult (List String)
  | [] => Except.ok []
  | s :: rest =>
      match pyGetD s "url" (JVal.str "") with
      | Except.error e => Except.error e
      | Except.ok (JVal.str u0) =>
          match collectUrls rest with
          | Except.error e => Except.error e
          | Except.ok rs =>
              Except.ok (if startsWithS (rstripChars [Char.ofNat 47] u0) "https://"
                then rstripChars [Char.ofNat 47] u0 :: rs else rs)
      | Except.ok _ => Except.error ⟨"AttributeError", "rstrip"⟩

/-- Source 2 (lines 217-231): read the parsed config. Only
`FileNotFoundError`, `json.JSONDecodeError` and `KeyError` are caught; the
`AttributeError` raised by `config.get(...)` on a non-dict config, or by
`servers.values()` / the entry loop on non-dict values, escapes. -/
def copilotFileUrls : FileState → PyResult (List String)
  | FileState.missing => Except.ok []
  | FileState.badJson => Except.ok []
  | FileState.parsed v =>
      match pyGetD v "servers" (JVal.obj []) with
      | Except.error e => Except.error e
      | Except.ok inner =>
        match pyGetD v "mcpServers" inner with
        | Except.error e => Except.error e
        | Except.ok (JVal.obj fields) => collectUrls (fields.map (fun kv => kv.2))
        | Except.ok _ => Except.error ⟨"AttributeError", "values"⟩

/-- Source 2 gated by the tool selector (line 218). -/
def copilotSourceUrls (tool : String) (fs : FileState) : PyResult (List String) :=
  if tool = "copilot" ∨ tool = "both" then copilotFileUrls fs
  else Except.ok []

/-- Python `sorted(set(...))` (line 233): order-insensitive dedup, then sort
by string value (insertion sort — the sorted permutation of a duplicate-free
list is unique, so any correct sort models Python's `sorted`). -/
def pySortedSet (l : List String) : List String :=
  List.insertionSort (· ≤ ·) l.dedup

/-- `get_configured_servers` (lines 187-234) as a function of the external
world. -/
def get_configured_servers (tool : String) (w : GetConfWorld) : PyResult ProgOut :=
  match copilotSourceUrls tool w.copilotFile with
  | Except.error e => Except.error e
  | Except.ok b =>
      Except.ok ⟨0, [OutLine.jsonStrings (pySortedSet (claudeSourceUrls tool w ++ b))], []⟩

/-- The configuration file parses to the valid JSON text `[]`: a list, not an
object. -/
def c9BadWorld : GetConfWorld := ⟨false, none, FileState.parsed (JVal.arr [])⟩

/-- **C9** (counterexample): a configuration file containing the valid JSON
text `[]` makes `config.get("servers", {})` raise `AttributeError`, which the
`except (FileNotFoundError, json.JSONDecodeError, KeyError)` clause does not
catch — the reader crashes instead of exiting 0 with a JSON array. -/
theorem get_configured_nonobject_config_crashes :
    get_configured_servers "both" c9BadWorld =
      Except.error ⟨"AttributeError", "get"⟩ := rfl

/-- A server entry on which the per-entry loop cannot raise: a dict whose
`url`, when present, is a string. -/
def entryWellShaped : JVal → Bool
  | JVal.obj fields =>
      match jlookup fields "url" with
      | none => true
      | some (JVal.str _) => true
      | some _ => false
  | _ => false

/-- A servers value on which `servers.values()` and the loop cannot raise. -/
def serversValWellShaped : JVal → Bool
  | JVal.obj fields => fields.all (fun kv => entryWellShaped kv.2)
  | _ => false

/-- A file state on which source 2 cannot raise: missing, malformed JSON, or
parsed to an object whose selected servers value is well-shaped. -/
def fileWellShaped : FileState → Bool
  | FileState.missing => true
  | FileState.badJson => true
  | FileState.parsed (JVal.obj fields) =>
      serversValWellShaped
        ((jlookup fields "mcpServers").getD ((jlookup fields "servers").getD (JVal.obj [])))
  | FileState.parsed _ => false

theorem collectUrls_ok : ∀ (sf : List (String × JVal)),
    sf.all (fun kv => entryWellShaped kv.2) = true →
    ∃ l, collectUrls (sf.map (fun kv => kv.2)) = Except.ok l := by
  intro sf
  induction sf with
  | nil => exact fun _ => ⟨[], rfl⟩
  | cons kv rest ih =>
      intro h
      rw [List.all_cons, Bool.and_eq_true] at h
      obtain ⟨l, hl⟩ := ih h.2
      obtain ⟨k, s⟩ := kv
      cases s with
      | obj fields =>
          cases hu : jlookup fields "url" with
          | none => simp [collectUrls, pyGetD, hu, hl]
          | some v =>
              cases v with
              | str u0 => simp [collectUrls, pyGetD, hu, hl]
              | null => simp [entryWellShaped, hu] at h
              | bool b => simp [entryWellShaped, hu] at h
              | num n => simp [entryWellShaped, hu] at h
              | arr es => simp [entryWellShaped, hu] at h
              | obj fs => simp [entryWellShaped, hu] at h
      | null => simp [entryWellShaped] at h
      | bool b => simp [entryWellShaped] at h
      | num n => simp [entryWellShaped] at h
      | str ss => simp [entryWellShaped] at h
      | arr es => simp [entryWellShaped] at h

theorem copilotFileUrls_ok (fs : FileState) (h : fileWellShaped fs = true) :
    ∃ l, copilotFileUrls fs = Except.ok l := by
  cases fs with
  | missing => exact ⟨[], rfl⟩
  | badJson => exact ⟨[], rfl⟩
  | parsed v =>
      cases v with
      | obj fields =>
          simp only [fileWellShaped] at h
          cases hv : (jlookup fields "mcpServers").getD
              ((jlookup fields "servers").getD (JVal.obj [])) with
          | obj sf =>
              rw [hv] at h
              simp only [serversValWellShaped] at h
              obtain ⟨l, hl⟩ := collectUrls_ok sf h
              exact ⟨l, by simp [copilotFileUrls, pyGetD, hv, hl]⟩
          | null => rw [hv] at h; simp [serversValWellShaped] at h
          | bool b => rw [hv] at h; simp [serversValWellShaped] at h
          | num n => rw [hv] at h; simp [serversValWellShaped] at h
          | str s => rw [hv] at h; simp [serversValWellShaped] at h
          | arr es => rw [hv] at h; simp [serversValWellShaped] at h
      | null => simp [fileWellShaped] at h
      | bool b => simp [fileWellShaped] at h
      | num n => simp [fileWellShaped] at h
      | str s => simp [fileWellShaped] at h
      | arr es => simp [fileWellShaped] at h

/-- **C9** (amended): whenever the configuration file is missing, malformed
JSON, or parses to a well-shaped store, `get-configured` exits 0 with empty
stderr and prints one JSON array that is sorted, duplicate-free, and contains
exactly the union of the URLs of the two sources (a failing claude source
already contributes `[]` inside `claudeSourceUrls`). -/
theorem get_configured_wellshaped_sorted_union (tool : String) (w : GetConfWorld)
    (h : fileWellShaped w.copilotFile = true) :
    ∃ b urls,
      copilotSourceUrls tool w.copilotFile = Except.ok b ∧
      get_configured_servers tool w = Except.ok ⟨0, [OutLine.jsonStrings urls], []⟩ ∧
      List.Sorted (· ≤ ·) urls ∧
      urls.Nodup ∧
      (∀ u, u ∈ urls ↔ (u ∈ claudeSourceUrls tool w ∨ u ∈ b)) := by
  have hbEx : ∃ b, copilotSourceUrls tool w.copilotFile = Except.ok b := by
    unfold copilotSourceUrls
    by_cases ht : tool = "copilot" ∨ tool = "both"
    · rw [if_pos ht]; exact copilotFileUrls_ok w.copilotFile h
    · rw [if_neg ht]; exact ⟨[], rfl⟩
  obtain ⟨b, hb⟩ := hbEx
  refine ⟨b, pySortedSet (claudeSourceUrls tool w ++ b), hb, ?_, ?_, ?_, ?_⟩
  · simp [get_configured_servers, hb]
  · exact List.sorted_insertionSort _ _
  · exact ((List.perm_insertionSort _ _).nodup_iff).mpr (List.nodup_dedup _)
  · intro u
    unfold pySortedSet
    rw [(List.perm_insertionSort _ _).mem_iff, List.mem_dedup, List.mem_append]

/-- A concrete world for C9: claude present with one listed URL, and a
well-shaped config file with one entry. -/
def c9World : GetConfWorld :=
  ⟨true, some (0, "Dataverse: https://one.example/api/mcp (HTTP)"),
   FileState.parsed (JVal.obj [("mcpServers", JVal.obj
      [("Dataverse", JVal.obj
         [("type", JVal.str "http"),
          ("url", JVal.str "https://acme.crm.dynamics.com/api/mcp")])])])⟩

/-- Witness for the amended C9 at `c9World`. -/
theorem get_configured_wellshaped_sorted_union_witness :
    ∃ b urls,
      copilotSourceUrls "both" c9World.copilotFile = Except.ok b ∧
      get_configured_servers "both" c9World = Except.ok ⟨0, [OutLine.jsonStrings urls], []⟩ ∧
      List.Sorted (· ≤ ·) urls ∧
      urls.Nodup ∧
      (∀ u, u ∈ urls ↔ (u ∈ claudeSourceUrls "both" c9World ∨ u ∈ b)) :=
  get_configured_wellshaped_sorted_union "both" c9World (by decide)

/-- One invocation of the reader together with the world it leaves behind:
the Python function only ever opens the configuration file for reading and
performs no write, so the world comes back unchanged. -/
def get_configured_run (tool : String) (w : GetConfWorld) :
    PyResult ProgOut × GetConfWorld :=
  (get_configured_servers tool w, w)

/-- **C10**: a `get-configured --tool copilot` run leaves the configuration
file untouched, its output is determined by the file content alone, and hence
a second run against the unchanged file yields the same output (in particular
the same sorted URL set). -/
theorem get_configured_file_reader_deterministic (w w' : GetConfWorld)
    (h : w.copilotFile = w'.copilotFile) :
    (get_configured_run "copilot" w).2 = w ∧
    (get_configured_run "copilot" ((get_configured_run "copilot" w).2)).1
      = (get_configured_run "copilot" w).1 ∧
    (get_configured_run "copilot" w).1 = (get_configured_run "copilot" w').1 := by
  refine ⟨rfl, rfl, ?_⟩
  simp [get_configured_run, get_configured_servers, claudeSourceUrls,
    copilotSourceUrls, h]

/-- Witness for C10: two worlds sharing the file content but differing in
every claude-side input. -/
theorem get_configured_file_reader_deterministic_witness :
    (get_configured_run "copilot" ⟨true, some (0, "x"), FileState.missing⟩).2
      = ⟨true, some (0, "x"), FileState.missing⟩ ∧
    (get_configured_run "copilot"
        ((get_configured_run "copilot" ⟨true, some (0, "x"), FileState.missing⟩).2)).1
      = (get_configured_run "copilot" ⟨true, some (0, "x"), FileState.missing⟩).1 ∧
    (get_configured_run "copilot" ⟨true, some (0, "x"), FileState.missing⟩).1
      = (get_configured_run "copilot" ⟨false, none, FileState.missing⟩).1 :=
  get_configured_file_reader_deterministic
    ⟨true, some (0, "x"), FileState.missing⟩ ⟨false, none, FileState.missing⟩ rfl
